import Mathlib

/-!
Shallow embedding of the retrieval-augmented-generation chat service
(`app/services/supabase_service.py`, `app/tools/vector_tool.py`,
`app/agents/rag_agent.py`, `app/main.py`) and proofs of the specified
properties of its retrieval pipeline, answer generator and HTTP endpoint.

Python values that only flow through the pipeline opaquely are modelled by
simple Lean types; a Python call that may raise is modelled by `Except Unit`;
the environment variables and the behaviour of the three remote services
(embedding provider, vector store, generative model) are collected in a
`World` record, so every embedded function is a total function of the world
and its Python arguments.
-/

namespace FindYourWave

/-- Python floats only flow through this pipeline opaquely (no arithmetic is
ever performed on them), so they are modelled as rationals, which have
decidable equality. -/
abbrev PyFloat := Rat

/-- One row of `response.data` returned by the Supabase RPC. The pipeline only
tests `isinstance(doc, dict)` and reads the string field `content`
(`none` models a mapping without a `content` key), so a row is modelled by
exactly those two observations. -/
structure Doc where
  is_dict : Bool
  content : Option String
deriving DecidableEq, Repr

/-- Python truthiness of an optional string: `not x` is `False` exactly when
the value is present and a non-empty string. Used for `os.getenv` results and
for the looked-up `content` value of a row. -/
def truthyStr : Option String → Bool
  | some s => s != ""
  | none => false

/-- Everything outside the repository that the embedded functions observe:
the environment variables and the outcome of each remote call.
`Except Unit α` models a call that either raises (`.error ()`) or returns
normally (`.ok v`). -/
structure World where
  /-- env var GEMINI_API_KEY (`none` = unset). -/
  GEMINI_API_KEY : Option String
  /-- env var SUPABASE_URL. -/
  SUPABASE_URL : Option String
  /-- env var SUPABASE_KEY. -/
  SUPABASE_KEY : Option String
  /-- outcome of `create_client(SUPABASE_URL, SUPABASE_KEY)`. -/
  create_client : Except Unit Unit
  /-- outcome of `genai.embed_content_async(...)` followed by the
  `result["embedding"]` lookup: raises, or yields the embedding list. -/
  embed_call : Except Unit (List PyFloat)
  /-- outcome of `supabase.rpc(MATCH_FUNCTION, ...).execute()` followed by
  reading `response.data`: raises, or yields the row list. -/
  rpc_call : Except Unit (List Doc)
  /-- outcome of `genai.GenerativeModel(GENERATIVE_MODEL_NAME)` at agent
  construction time. -/
  model_load : Except Unit Unit
  /-- outcome of `self.model.generate_content_async(prompt)` as observed by
  the agent: raises, or yields the response text (`none` models a falsy
  response object or a `None` text attribute). The argument is the prompt. -/
  generate_content : String → Except Unit (Option String)

/-- `get_supabase_client` (supabase_service.py lines 46-63): `none` when the
URL or key is missing or `create_client` raises; `some ()` stands for a live
client handle. -/
def get_supabase_client (w : World) : Option Unit :=
  if ¬ (truthyStr w.SUPABASE_URL = true) ∨ ¬ (truthyStr w.SUPABASE_KEY = true) then
    none
  else
    match w.create_client with
    | .ok _ => some ()
    | .error _ => none

/-- Result of `get_gemini_embedding` together with whether the remote
embedding call was attempted (needed to state that the guards fire before any
network call). -/
structure EmbedTrace where
  result : Option (List PyFloat)
  remote_called : Bool
deriving DecidableEq, Repr

/-- `get_gemini_embedding` (supabase_service.py lines 66-90): fail (`none`)
without calling the provider when the API key is not configured or the text
is empty; otherwise make the remote call, failing on a raise or on an empty
(`falsy`) returned embedding. -/
def get_gemini_embedding (w : World) (text : String) : EmbedTrace :=
  if ¬ (truthyStr w.GEMINI_API_KEY = true) then
    { result := none, remote_called := false }
  else if text = "" then
    { result := none, remote_called := false }
  else
    match w.embed_call with
    | .error _ => { result := none, remote_called := true }
    | .ok embedding =>
      if embedding = [] then { result := none, remote_called := true }
      else { result := some embedding, remote_called := true }

/-- `query_supabase_vector` (supabase_service.py lines 92-131): `none` on an
empty input vector, a missing client, or a raising RPC; `some data` when the
RPC returns row list `data` (an explicit `some []` when `data` is falsy,
mirroring the source's `return []` branch). -/
def query_supabase_vector (w : World) (embedding : List PyFloat) :
    Option (List Doc) :=
  if embedding = [] then none
  else
    match get_supabase_client w with
    | none => none
    | some _ =>
      match w.rpc_call with
      | .error _ => none
      | .ok data => if data = [] then some [] else some data

/-- The filter applied by `build_context_string`'s list comprehension:
`isinstance(doc, dict) and doc.get("content")`. A row passes exactly when it
is a mapping owning a non-empty `content` field. -/
def has_usable_content (d : Doc) : Bool :=
  d.is_dict && truthyStr d.content

/-- `build_context_string` (supabase_service.py lines 133-152): empty string
on `None` or `[]`; otherwise the `"\n---\n"`-join of the non-empty `content`
fields of the dict rows, in input order, or the empty string when no row has
usable content. -/
def build_context_string (docs : Option (List Doc)) : String :=
  match docs with
  | none => ""
  | some ds =>
    if ds = [] then ""
    else
      let contents := (ds.filter has_usable_content).map (fun d => d.content.getD "")
      let valid_contents := contents.filter (fun c => c != "")
      if valid_contents = [] then ""
      else String.intercalate "\n---\n" valid_contents

/-- The dictionary returned by `VectorRetrievalTool.retrieve_and_build_context`. -/
structure PipelineResult where
  context : String
  retrieved_docs : List Doc
deriving DecidableEq, Repr

/-- `VectorRetrievalTool.retrieve_and_build_context` (vector_tool.py lines
17-62): embedding → vector search → context build, collapsing every stage
failure to `⟨"", []⟩`. The source wraps the body in a `try/except` returning
the same empty shape; every stage of this model is total (each stage catches
its own exceptions internally), so that handler has nothing left to catch. -/
def retrieve_and_build_context (w : World) (query : String) : PipelineResult :=
  match (get_gemini_embedding w query).result with
  | none => { context := "", retrieved_docs := [] }
  | some embedding =>
    match query_supabase_vector w embedding with
    | none => { context := "", retrieved_docs := [] }
    | some similar_docs =>
      if similar_docs = [] then { context := "", retrieved_docs := [] }
      else
        { context := build_context_string (some similar_docs),
          retrieved_docs := similar_docs }

/-- The static system instruction fixed in `RAGAgent.__init__` (rag_agent.py
lines 37-59), transcribed verbatim (a Python triple-quoted string, hence the
leading and trailing newline). -/
def system_instruction : String :=
  "\n너는 한국의 해수욕장 파도 예보 데이터를 분석해서 서핑 입문자나 애호가에게 \"이 날, 이 곳에 가면 좋을지\"에 대해 친근하고 명확하게 조언해주는 서핑 코치야.\n\n주어진 컨텍스트 문서에는 해수욕장 이름, 날짜, 파고, 피리어드, 스웰 방향, 바람 정보 등이 들어 있어.\n사용자의 질문과 검색된 컨텍스트를 바탕으로 가장 유의미한 정보만 요약해서 답변해줘.\n\n응답은 다음을 반드시 포함해야 해:\n- 언제 / 어디 해변인지 명시\n- 파고 + 피리어드 정보를 단순 나열하지 말고, \"힘 있는 파도\", \"서핑하기엔 약한 파도\" 같이 의미를 해석\n- 스웰 방향, 바람 방향/세기 정보를 바탕으로 \"오프쇼어(해변에서 바다로)\", \"온쇼어(바다에서 해변으로)\" 인지 분석하고 서핑 조건에 미치는 영향 설명\n- 총평: \"지금 조건이면 입문자에게 딱 좋아요!\" / \"서핑보단 산책용입니다\" 처럼 최종적인 조언으로 마무리\n\n하지 말아야 할 것:\n- 단순히 컨텍스트의 수치만 나열하지 마. 의미를 부여하고 해석해줘.\n- \"좋은지, 나쁜지\" 판단 없이 애매하게 끝내지 마. 명확한 결론을 내려줘.\n- \"정보가 없습니다\"라고만 말하지 말고, 어떤 정보가 부족한지 또는 왜 판단이 어려운지 설명하거나 대안을 제시해줘.\n- 답변에 마크다운 형식(`*`, `#` 등)을 사용하지 마. 일반 텍스트로만 답변해.\n\n예시 응답:\n> 내일 정암 해수욕장은 오전엔 파도가 거의 없지만, 오후부터는 1미터 내외의 괜찮은 파도가 8초 주기로 꾸준히 들어올 것으로 보여. 바람도 육지에서 바다로 부는 약한 오프쇼어라 파도면이 깔끔할 거야. 서핑 시작하는 분들에게는 오후 시간대가 아주 좋을 것 같아! 꼭 가봐!\n\n주어진 컨텍스트를 충실히 활용하되, 자연스럽고 친근한 말투로 실제 서핑 코치처럼 조언해줘.\n"

/-- Fixed reply when the generation model was never initialized
(rag_agent.py line 70). -/
def unavailable_message : String :=
  "죄송합니다. 챗봇 엔진에 문제가 발생하여 답변을 드릴 수 없습니다."

/-- Fixed reply when the provider returned no usable text
(rag_agent.py line 113). -/
def blocked_message : String :=
  "죄송합니다. 답변을 생성하는 데 예상치 못한 문제가 발생했습니다."

/-- Fixed reply when an exception escaped the generation attempt
(rag_agent.py line 122). -/
def processing_error_message : String :=
  "죄송합니다. 요청을 처리하는 중에 오류가 발생했습니다."

/-- The no-context marker line of the prompt (rag_agent.py line 88). -/
def no_context_marker : String := "--- 검색된 컨텍스트 없음 ---"

/-- The begin delimiter of the context block (rag_agent.py line 94). -/
def context_begin_marker : String := "--- 검색된 컨텍스트 시작 ---"

/-- The end delimiter of the context block (rag_agent.py line 96). -/
def context_end_marker : String := "--- 검색된 컨텍스트 끝 ---"

/-- The f-string prompt of the empty-context branch (rag_agent.py line 88). -/
def no_context_prompt (user_query : String) : String :=
  system_instruction ++ "\n\n--- 검색된 컨텍스트 없음 ---\n\n사용자 질문: " ++
    user_query ++ "\n\n서핑 코치 답변:"

/-- The triple-quoted f-string prompt of the non-empty-context branch
(rag_agent.py lines 92-100). -/
def with_context_prompt (context user_query : String) : String :=
  system_instruction ++ "\n\n--- 검색된 컨텍스트 시작 ---\n" ++ context ++
    "\n--- 검색된 컨텍스트 끝 ---\n\n사용자 질문: " ++ user_query ++
    "\n\n서핑 코치 답변:"

/-- The per-request state of `RAGAgent` that `generate_response` consults:
whether `self.model` is a live handle (`true`) or `None` (`false`). -/
structure RAGAgent where
  model_loaded : Bool
deriving DecidableEq, Repr

/-- `RAGAgent.__init__` (rag_agent.py lines 18-34): the model handle exists
exactly when the API key is configured and `genai.GenerativeModel` did not
raise. -/
def RAGAgent_init (w : World) : RAGAgent :=
  if truthyStr w.GEMINI_API_KEY = true then
    match w.model_load with
    | .ok _ => { model_loaded := true }
    | .error _ => { model_loaded := false }
  else { model_loaded := false }

/-- Observable outcome of one `RAGAgent.generate_response` call: the returned
reply, whether the retrieval tool was invoked, and the prompt sent to the
generative model (`none` = the model was never invoked). -/
structure GenTrace where
  reply : String
  retrieval_called : Bool
  prompt_sent : Option String
deriving DecidableEq, Repr

/-- `RAGAgent.generate_response` (rag_agent.py lines 61-122): fixed
unavailability reply (and no retrieval or generation call) when the model is
uninitialized; otherwise retrieve context, compose the prompt (context or
no-context variant), call the model once, and return the trimmed text, the
blocked reply on falsy output, or the generic error reply when the call
raised. -/
def generate_response (w : World) (agent : RAGAgent) (user_query : String) :
    GenTrace :=
  if ¬ (agent.model_loaded = true) then
    { reply := unavailable_message, retrieval_called := false,
      prompt_sent := none }
  else
    let retrieval_result := retrieve_and_build_context w user_query
    let context := retrieval_result.context
    let prompt :=
      if context = "" then no_context_prompt user_query
      else with_context_prompt context user_query
    match w.generate_content prompt with
    | .error _ =>
      { reply := processing_error_message, retrieval_called := true,
        prompt_sent := some prompt }
    | .ok text =>
      if text.getD "" = "" then
        { reply := blocked_message, retrieval_called := true,
          prompt_sent := some prompt }
      else
        { reply := (text.getD "").trim, retrieval_called := true,
          prompt_sent := some prompt }

/-- The payload of a FastAPI `HTTPException` raised by the endpoint. -/
structure HTTPError where
  status_code : Nat
  detail : String
deriving DecidableEq, Repr

/-- 503 detail string of `chat_endpoint` (main.py line 115). -/
def service_unavailable_detail : String :=
  "챗봇 서비스가 현재 사용할 수 없습니다. 관리자에게 문의하거나 잠시 후 다시 시도해주세요."

/-- 400 detail string of `chat_endpoint` (main.py line 125). -/
def empty_message_detail : String :=
  "메시지를 입력해주세요."

/-- `chat_endpoint` (main.py lines 105-142): availability check (agent object
present and its model loaded) first, raising 503; then the blank-message
check, raising 400; then one `generate_response` call whose reply is returned
(the surrounding `try/except` has nothing to catch since `generate_response`
is total). `session_id` is accepted but unused, as in the source. -/
def chat_endpoint (w : World) (rag_agent : Option RAGAgent)
    (message : String) (_session_id : Option String) :
    Except HTTPError String :=
  match rag_agent with
  | none => .error { status_code := 503, detail := service_unavailable_detail }
  | some agent =>
    if ¬ (agent.model_loaded = true) then
      .error { status_code := 503, detail := service_unavailable_detail }
    else if message = "" ∨ message.trim = "" then
      .error { status_code := 400, detail := empty_message_detail }
    else
      .ok (generate_response w agent message).reply

/-- A world where every environment variable is unset and every remote call
raises. -/
def failing_world : World where
  GEMINI_API_KEY := none
  SUPABASE_URL := none
  SUPABASE_KEY := none
  create_client := .error ()
  embed_call := .error ()
  rpc_call := .error ()
  model_load := .error ()
  generate_content := fun _ => .error ()

/-- A world whose embedding call succeeds but whose vector-store RPC raises. -/
def search_down_world : World where
  GEMINI_API_KEY := some "key"
  SUPABASE_URL := some "url"
  SUPABASE_KEY := some "anon"
  create_client := .ok ()
  embed_call := .ok [1]
  rpc_call := .error ()
  model_load := .ok ()
  generate_content := fun _ => .ok (some "답변")

/-- A concrete retrieved forecast row with usable content. -/
def doc_surf : Doc where
  is_dict := true
  content := some "Date: Apr 1, Wave 1.2m"

/-- A world where every stage succeeds and the search returns one usable
document. -/
def healthy_world : World where
  GEMINI_API_KEY := some "key"
  SUPABASE_URL := some "url"
  SUPABASE_KEY := some "anon"
  create_client := .ok ()
  embed_call := .ok [1, 2]
  rpc_call := .ok [doc_surf]
  model_load := .ok ()
  generate_content := fun _ => .ok (some " 내일 파도가 좋아요! ")

/-- `String.intercalate.go` only appends to its accumulator, so the result is
at least as long as the accumulator. -/
theorem intercalate_go_length_le (sep : String) (l : List String) :
    ∀ acc : String, acc.length ≤ (String.intercalate.go acc sep l).length := by
  induction l with
  | nil => intro acc; simp [String.intercalate.go]
  | cons a as ih =>
    intro acc
    simp only [String.intercalate.go]
    refine le_trans ?_ (ih (acc ++ sep ++ a))
    simp only [String.length_append]
    omega

/-- A string whose length is zero is the empty string. -/
theorem eq_empty_of_length_zero {s : String} (h : s.length = 0) : s = "" :=
  String.ext (List.length_eq_zero.mp h)

/-- The join of a list headed by a non-empty string is non-empty. -/
theorem intercalate_ne_empty (sep a : String) (l : List String)
    (ha : a ≠ "") : String.intercalate sep (a :: l) ≠ "" := by
  intro h
  have h1 : a.length ≤ (String.intercalate sep (a :: l)).length := by
    simpa [String.intercalate] using intercalate_go_length_le sep l a
  rw [h] at h1
  exact ha (eq_empty_of_length_zero (Nat.le_zero.mp h1))

/-- Every string extracted by `build_context_string`'s comprehension is
non-empty: a row passing the usable filter owns a non-empty content field. -/
theorem contents_mem_ne_empty (ds : List Doc) :
    ∀ c ∈ (ds.filter has_usable_content).map (fun d => d.content.getD ""),
      c ≠ "" := by
  intro c hc
  rcases List.mem_map.mp hc with ⟨d, hd, rfl⟩
  have hus := (List.mem_filter.mp hd).2
  unfold has_usable_content at hus
  cases h : d.content with
  | none => rw [h] at hus; simp [truthyStr] at hus
  | some s =>
    rw [h] at hus
    simp only [truthyStr, Bool.and_eq_true, bne_iff_ne, ne_eq] at hus
    simpa [h] using hus.2

/-- The second filter of `build_context_string` is the identity: the contents
extracted from usable rows are already all non-empty. -/
theorem valid_contents_eq (ds : List Doc) :
    ((ds.filter has_usable_content).map (fun d => d.content.getD "")).filter
        (fun c => c != "") =
      (ds.filter has_usable_content).map (fun d => d.content.getD "") :=
  List.filter_eq_self.mpr (by
    intro c hc
    simpa using contents_mem_ne_empty ds c hc)

/-- `build_context_string` on a present row list is exactly the join of the
usable contents, in input order. -/
theorem build_context_string_eq_intercalate (ds : List Doc) :
    build_context_string (some ds) =
      String.intercalate "\n---\n"
        ((ds.filter has_usable_content).map (fun d => d.content.getD "")) := by
  unfold build_context_string
  by_cases hds : ds = []
  · subst hds; rfl
  · simp only [if_neg hds, valid_contents_eq]
    by_cases hv : (ds.filter has_usable_content).map (fun d => d.content.getD "") = []
    · rw [if_pos hv, hv]
      rfl
    · rw [if_neg hv]

/-- `build_context_string` on a present row list is empty exactly when no row
has usable content. -/
theorem build_context_string_eq_empty_iff (ds : List Doc) :
    build_context_string (some ds) = "" ↔
      ∀ d ∈ ds, has_usable_content d = false := by
  rw [build_context_string_eq_intercalate]
  constructor
  · intro h
    by_contra hnot
    push_neg at hnot
    rcases hnot with ⟨d, hd, hus⟩
    have hmem : d ∈ ds.filter has_usable_content :=
      List.mem_filter.mpr ⟨hd, by simpa using hus⟩
    cases hf : ds.filter has_usable_content with
    | nil => rw [hf] at hmem; simp at hmem
    | cons a as =>
      rw [hf] at h
      simp only [List.map_cons] at h
      refine intercalate_ne_empty "\n---\n" (a.content.getD "")
        (as.map (fun d => d.content.getD "")) ?_ h
      apply contents_mem_ne_empty ds
      rw [hf]; simp
  · intro h
    have hnil : ds.filter has_usable_content = [] :=
      List.filter_eq_nil_iff.mpr (by intro d hd; simp [h d hd])
    rw [hnil]; rfl

/-- The pipeline returns either the empty result or the context built from
the non-empty document list the search returned. -/
theorem retrieve_cases (w : World) (q : String) :
    retrieve_and_build_context w q = { context := "", retrieved_docs := [] } ∨
      ∃ docs, docs ≠ [] ∧
        retrieve_and_build_context w q =
          { context := build_context_string (some docs),
            retrieved_docs := docs } := by
  unfold retrieve_and_build_context
  split
  · exact Or.inl rfl
  · split
    · exact Or.inl rfl
    · split
      · exact Or.inl rfl
      · next hd => exact Or.inr ⟨_, hd, rfl⟩

/-- C1: for every result of `retrieve_and_build_context`, the `context` field
is the empty string if and only if `retrieved_docs` is empty or none of the
retrieved rows has a non-empty `content` field (for mapping rows; a
non-mapping row has no fields, which is exactly the filter the source
applies). -/
theorem retrieve_context_empty_iff (w : World) (q : String) :
    (retrieve_and_build_context w q).context = "" ↔
      ((retrieve_and_build_context w q).retrieved_docs = [] ∨
        ∀ d ∈ (retrieve_and_build_context w q).retrieved_docs,
          has_usable_content d = false) := by
  rcases retrieve_cases w q with h | ⟨docs, hne, h⟩
  · rw [h]; simp
  · rw [h]
    show build_context_string (some docs) = "" ↔
      (docs = [] ∨ ∀ d ∈ docs, has_usable_content d = false)
    rw [build_context_string_eq_empty_iff]
    constructor
    · exact fun h => Or.inr h
    · rintro (h | h)
      · exact absurd h hne
      · exact h

/-- C3: `build_context_string` returns the `"\n---\n"`-join of each row's
non-empty content field in input order, and the empty string when the input
is `None`, empty, or has no usable content — making those cases
indistinguishable. -/
theorem build_context_string_spec (docs : Option (List Doc)) :
    build_context_string docs =
      String.intercalate "\n---\n"
        (((docs.getD []).filter has_usable_content).map
          (fun d => d.content.getD "")) ∧
    ((docs = none ∨ docs = some [] ∨
        (∀ d ∈ docs.getD [], has_usable_content d = false)) →
      build_context_string docs = "") := by
  constructor
  · cases docs with
    | none => rfl
    | some ds => simpa using build_context_string_eq_intercalate ds
  · rintro (h | h | h)
    · subst h; rfl
    · subst h; rfl
    · cases docs with
      | none => rfl
      | some ds =>
        exact (build_context_string_eq_empty_iff ds).mpr (by simpa using h)

/-- Witness for C3: the `None` and empty-list inputs both evaluate to the
empty context string. -/
theorem build_context_string_spec_witness :
    build_context_string none = "" ∧ build_context_string (some []) = "" :=
  ⟨(build_context_string_spec none).2 (Or.inl rfl),
   (build_context_string_spec (some [])).2 (Or.inr (Or.inl rfl))⟩

/-- When the remote embedding call raises, `get_gemini_embedding` reports
failure (the guard branches report failure as well, without the call). -/
theorem get_gemini_embedding_none_of_raise (w : World) (q : String)
    (h : w.embed_call = .error ()) :
    (get_gemini_embedding w q).result = none := by
  unfold get_gemini_embedding
  split
  · rfl
  · split
    · rfl
    · rw [h]

/-- When the vector-store RPC raises, `query_supabase_vector` reports failure
for every input vector. -/
theorem query_supabase_vector_none_of_raise (w : World) (emb : List PyFloat)
    (h : w.rpc_call = .error ()) :
    query_supabase_vector w emb = none := by
  unfold query_supabase_vector
  split
  · rfl
  · split
    · rfl
    · rw [h]

/-- C2: the pipeline is a total function of the world and the query (the
source catches every exception; no call of this model can fail to return),
and whenever the embedding stage or the search stage fails — by a failure
signal or by a raising external call — it returns exactly
`{context := "", retrieved_docs := []}`. -/
theorem retrieve_stage_failure_empty (w : World) (q : String) :
    ((get_gemini_embedding w q).result = none →
        retrieve_and_build_context w q =
          { context := "", retrieved_docs := [] }) ∧
    (∀ emb, (get_gemini_embedding w q).result = some emb →
        query_supabase_vector w emb = none →
        retrieve_and_build_context w q =
          { context := "", retrieved_docs := [] }) ∧
    (w.embed_call = .error () →
        retrieve_and_build_context w q =
          { context := "", retrieved_docs := [] }) ∧
    (w.rpc_call = .error () →
        retrieve_and_build_context w q =
          { context := "", retrieved_docs := [] }) := by
  refine ⟨?_, ?_, ?_, ?_⟩
  · intro h
    unfold retrieve_and_build_context
    rw [h]
  · intro emb h1 h2
    unfold retrieve_and_build_context
    simp only [h1, h2]
  · intro h
    unfold retrieve_and_build_context
    rw [get_gemini_embedding_none_of_raise w q h]
  · intro h
    unfold retrieve_and_build_context
    cases hres : (get_gemini_embedding w q).result with
    | none => rfl
    | some emb => simp only [query_supabase_vector_none_of_raise w emb h]

/-- Witness for C2: in a world where every call raises, and in a world where
only the vector store raises, the pipeline returns the empty result. -/
theorem retrieve_stage_failure_empty_witness :
    retrieve_and_build_context failing_world "내일 해운대 파도 어때?" =
        { context := "", retrieved_docs := [] } ∧
      retrieve_and_build_context search_down_world "내일 해운대 파도 어때?" =
        { context := "", retrieved_docs := [] } :=
  ⟨(retrieve_stage_failure_empty failing_world "내일 해운대 파도 어때?").1 rfl,
   (retrieve_stage_failure_empty search_down_world
      "내일 해운대 파도 어때?").2.2.2 rfl⟩

/-- C4: the three outcomes of `query_supabase_vector` are distinguishable by
the caller: a missing client or raising RPC yields the failure value `none`;
a successful call returning row list `data` yields `some data` — in
particular `some []` for zero matches and a `some` of exactly the `N`
returned documents otherwise — and a success value is never the failure
value. -/
theorem query_supabase_vector_outcomes (w : World) (emb : List PyFloat)
    (hemb : emb ≠ []) :
    (get_supabase_client w = none → query_supabase_vector w emb = none) ∧
    (get_supabase_client w = some () →
      (w.rpc_call = .error () → query_supabase_vector w emb = none) ∧
      (∀ data, w.rpc_call = .ok data →
        query_supabase_vector w emb = some data)) ∧
    (∀ data : List Doc, (some data : Option (List Doc)) ≠ none) := by
  refine ⟨?_, ?_, ?_⟩
  · intro h
    unfold query_supabase_vector
    rw [if_neg hemb, h]
  · intro hcl
    refine ⟨?_, ?_⟩
    · intro h
      unfold query_supabase_vector
      rw [if_neg hemb, hcl, h]
    · intro data h
      unfold query_supabase_vector
      rw [if_neg hemb, hcl, h]
      by_cases hdat : data = []
      · simp [hdat]
      · simp [hdat]
  · intro data h
    cases h

/-- Witness for C4: in the healthy world the search reaches the RPC and
returns exactly the one row the store supplied. -/
theorem query_supabase_vector_outcomes_witness :
    query_supabase_vector healthy_world [1, 2] = some [doc_surf] :=
  ((query_supabase_vector_outcomes healthy_world [1, 2]
      (by simp)).2.1 rfl).2 [doc_surf] rfl

/-- C5: when the embedding stage succeeds and the search stage succeeds with
a non-empty document list all of whose rows have usable content, the pipeline
returns exactly those documents (unmodified, in search order — hence of the
same length) and a non-empty context. -/
theorem retrieve_success_shape (w : World) (q : String) (emb : List PyFloat)
    (docs : List Doc)
    (hemb : (get_gemini_embedding w q).result = some emb)
    (hsearch : query_supabase_vector w emb = some docs)
    (hne : docs ≠ [])
    (husable : ∀ d ∈ docs, has_usable_content d = true) :
    (retrieve_and_build_context w q).retrieved_docs = docs ∧
      (retrieve_and_build_context w q).context ≠ "" := by
  have hr : retrieve_and_build_context w q =
      { context := build_context_string (some docs), retrieved_docs := docs } := by
    unfold retrieve_and_build_context
    simp only [hemb, hsearch, if_neg hne]
  rw [hr]
  refine ⟨rfl, ?_⟩
  show build_context_string (some docs) ≠ ""
  intro hctx
  have hall := (build_context_string_eq_empty_iff docs).mp hctx
  cases docs with
  | nil => exact hne rfl
  | cons a as =>
    have h1 := husable a (by simp)
    have h2 := hall a (by simp)
    rw [h1] at h2
    cases h2

/-- Witness for C5: the healthy world returns its single usable document and
a non-empty context. -/
theorem retrieve_success_shape_witness :
    (retrieve_and_build_context healthy_world
        "내일 해운대 파도 어때?").retrieved_docs = [doc_surf] ∧
      (retrieve_and_build_context healthy_world
        "내일 해운대 파도 어때?").context ≠ "" :=
  retrieve_success_shape healthy_world "내일 해운대 파도 어때?" [1, 2] [doc_surf]
    rfl rfl (by simp) (by decide)

/-- C6: in the Uninitialized state (`self.model is None`),
`generate_response` immediately returns the fixed unavailability message,
with no retrieval call and no generation call. -/
theorem generate_response_uninitialized (w : World) (agent : RAGAgent)
    (q : String) (h : agent.model_loaded = false) :
    generate_response w agent q =
      { reply := unavailable_message, retrieval_called := false,
        prompt_sent := none } := by
  unfold generate_response
  rw [h]
  rfl

/-- Witness for C6: the uninitialized agent returns the fixed message for a
concrete query, calling neither service. -/
theorem generate_response_uninitialized_witness :
    generate_response failing_world { model_loaded := false }
        "내일 해운대 파도 어때?" =
      { reply := unavailable_message, retrieval_called := false,
        prompt_sent := none } :=
  generate_response_uninitialized failing_world { model_loaded := false }
    "내일 해운대 파도 어때?" rfl

/-- The no-context f-string splits as system instruction, separator, marker,
separator, user query, answer cue. -/
theorem no_context_prompt_decompose (q : String) :
    no_context_prompt q =
      system_instruction ++ "\n\n" ++ no_context_marker ++
        "\n\n사용자 질문: " ++ q ++ "\n\n서핑 코치 답변:" := by
  unfold no_context_prompt no_context_marker
  have h1 : "\n\n--- 검색된 컨텍스트 없음 ---\n\n사용자 질문: " =
      "\n\n" ++ "--- 검색된 컨텍스트 없음 ---" ++ "\n\n사용자 질문: " := by decide
  rw [h1]
  simp only [String.append_assoc]

/-- The with-context f-string splits as system instruction, separator,
delimited context block, separator, user query, answer cue. -/
theorem with_context_prompt_decompose (c q : String) :
    with_context_prompt c q =
      system_instruction ++ "\n\n" ++
        (context_begin_marker ++ "\n" ++ c ++ "\n" ++ context_end_marker) ++
        "\n\n사용자 질문: " ++ q ++ "\n\n서핑 코치 답변:" := by
  unfold with_context_prompt context_begin_marker context_end_marker
  have h1 : "\n\n--- 검색된 컨텍스트 시작 ---\n" =
      "\n\n" ++ "--- 검색된 컨텍스트 시작 ---" ++ "\n" := by decide
  have h2 : "\n--- 검색된 컨텍스트 끝 ---\n\n사용자 질문: " =
      "\n" ++ "--- 검색된 컨텍스트 끝 ---" ++ "\n\n사용자 질문: " := by decide
  rw [h1, h2]
  simp only [String.append_assoc]

/-- In the Ready state the generative model is always sent the prompt built
from the retrieved context (context or no-context variant). -/
theorem generate_response_prompt_sent (w : World) (agent : RAGAgent)
    (q : String) (h : agent.model_loaded = true) :
    (generate_response w agent q).prompt_sent =
      some (if (retrieve_and_build_context w q).context = ""
        then no_context_prompt q
        else with_context_prompt (retrieve_and_build_context w q).context q) := by
  unfold generate_response
  rw [h]
  simp only [not_true_eq_false, if_false]
  cases hg : w.generate_content (if (retrieve_and_build_context w q).context = ""
      then no_context_prompt q
      else with_context_prompt (retrieve_and_build_context w q).context q) with
  | error e => simp [hg]
  | ok t =>
    by_cases ht : t.getD "" = ""
    · simp [hg, ht]
    · simp [hg, ht]

/-- C7: in the Ready state, exactly one prompt is composed from three parts
in fixed order — the static system instruction, then either the context
delimited by the begin/end markers (context non-empty) or the no-context
marker (context empty), then the literal user query with the fixed answer
cue — and the generation model is invoked with it in both cases, never
skipped. -/
theorem generate_response_prompting (w : World) (agent : RAGAgent)
    (q : String) (h : agent.model_loaded = true) :
    ∃ middle,
      (generate_response w agent q).prompt_sent =
        some (system_instruction ++ "\n\n" ++ middle ++
          "\n\n사용자 질문: " ++ q ++ "\n\n서핑 코치 답변:") ∧
      (((retrieve_and_build_context w q).context = "" ∧
          middle = no_context_marker) ∨
        ((retrieve_and_build_context w q).context ≠ "" ∧
          middle = context_begin_marker ++ "\n" ++
            (retrieve_and_build_context w q).context ++ "\n" ++
            context_end_marker)) := by
  rw [generate_response_prompt_sent w agent q h]
  by_cases hc : (retrieve_and_build_context w q).context = ""
  · refine ⟨no_context_marker, ?_, Or.inl ⟨hc, rfl⟩⟩
    rw [if_pos hc, no_context_prompt_decompose]
  · refine ⟨context_begin_marker ++ "\n" ++
      (retrieve_and_build_context w q).context ++ "\n" ++ context_end_marker,
      ?_, Or.inr ⟨hc, rfl⟩⟩
    rw [if_neg hc, with_context_prompt_decompose]

/-- Witness for C7: in the healthy world the Ready agent sends a three-part
prompt. -/
theorem generate_response_prompting_witness :
    ∃ middle,
      (generate_response healthy_world { model_loaded := true }
          "내일 해운대 파도 어때?").prompt_sent =
        some (system_instruction ++ "\n\n" ++ middle ++
          "\n\n사용자 질문: " ++ "내일 해운대 파도 어때?" ++ "\n\n서핑 코치 답변:") ∧
      (((retrieve_and_build_context healthy_world
            "내일 해운대 파도 어때?").context = "" ∧
          middle = no_context_marker) ∨
        ((retrieve_and_build_context healthy_world
            "내일 해운대 파도 어때?").context ≠ "" ∧
          middle = context_begin_marker ++ "\n" ++
            (retrieve_and_build_context healthy_world
              "내일 해운대 파도 어때?").context ++ "\n" ++
            context_end_marker)) :=
  generate_response_prompting healthy_world { model_loaded := true }
    "내일 해운대 파도 어때?" rfl

/-- A world identical to the healthy one except that the generative model
returns empty text (safety filtering / empty completion). -/
def blocked_world : World :=
  { healthy_world with generate_content := fun _ => .ok (some "") }

/-- A world identical to the healthy one except that the generation call
raises. -/
def generation_raises_world : World :=
  { healthy_world with generate_content := fun _ => .error () }

/-- C8: when the generation call completes with no usable text the agent
returns the fixed blocked message; the three user-visible failure messages
(unavailable, blocked/empty, unexpected error) are pairwise distinct fixed
strings, each produced by its own internal state (uninitialized model, falsy
provider output, raised exception respectively). -/
theorem generate_response_failure_messages (w : World) (agent : RAGAgent)
    (q : String) :
    (agent.model_loaded = false →
        (generate_response w agent q).reply = unavailable_message) ∧
    (agent.model_loaded = true →
      (∀ t, w.generate_content
            (if (retrieve_and_build_context w q).context = ""
              then no_context_prompt q
              else with_context_prompt
                (retrieve_and_build_context w q).context q) = .ok t →
          t.getD "" = "" →
          (generate_response w agent q).reply = blocked_message) ∧
      (w.generate_content
            (if (retrieve_and_build_context w q).context = ""
              then no_context_prompt q
              else with_context_prompt
                (retrieve_and_build_context w q).context q) = .error () →
          (generate_response w agent q).reply = processing_error_message)) ∧
    (unavailable_message ≠ blocked_message ∧
      unavailable_message ≠ processing_error_message ∧
      blocked_message ≠ processing_error_message) := by
  refine ⟨?_, ?_, by decide, by decide, by decide⟩
  · intro h
    unfold generate_response
    rw [h]
    rfl
  · intro h
    constructor
    · intro t hg ht
      unfold generate_response
      rw [h]
      simp only [not_true_eq_false, if_false]
      simp [hg, ht]
    · intro hg
      unfold generate_response
      rw [h]
      simp only [not_true_eq_false, if_false]
      simp [hg]

/-- Witness for C8: concrete uninitialized, blocked and raising worlds
produce the three distinct fixed messages. -/
theorem generate_response_failure_messages_witness :
    (generate_response failing_world { model_loaded := false }
        "내일 해운대 파도 어때?").reply = unavailable_message ∧
      (generate_response blocked_world { model_loaded := true }
        "내일 해운대 파도 어때?").reply = blocked_message ∧
      (generate_response generation_raises_world { model_loaded := true }
        "내일 해운대 파도 어때?").reply = processing_error_message :=
  ⟨(generate_response_failure_messages failing_world { model_loaded := false }
      "내일 해운대 파도 어때?").1 rfl,
   ((generate_response_failure_messages blocked_world { model_loaded := true }
      "내일 해운대 파도 어때?").2.1 rfl).1 (some "") rfl rfl,
   ((generate_response_failure_messages generation_raises_world
      { model_loaded := true } "내일 해운대 파도 어때?").2.1 rfl).2 rfl⟩

/-- C9: `get_gemini_embedding` fails without any remote call both when the
credential is unconfigured and when the input text is empty; the remote
embedding call is attempted exactly when the credential is present and the
text is non-empty. -/
theorem get_gemini_embedding_guards (w : World) (text : String) :
    (truthyStr w.GEMINI_API_KEY = false →
        get_gemini_embedding w text =
          { result := none, remote_called := false }) ∧
    (text = "" →
        get_gemini_embedding w text =
          { result := none, remote_called := false }) ∧
    ((get_gemini_embedding w text).remote_called = true ↔
        (truthyStr w.GEMINI_API_KEY = true ∧ text ≠ "")) := by
  refine ⟨?_, ?_, ?_⟩
  · intro h
    unfold get_gemini_embedding
    rw [if_pos (by simp [h])]
  · intro h
    unfold get_gemini_embedding
    by_cases hk : truthyStr w.GEMINI_API_KEY = true
    · rw [if_neg (by simp [hk]), if_pos h]
    · rw [if_pos (by simpa using hk)]
  · unfold get_gemini_embedding
    by_cases hk : truthyStr w.GEMINI_API_KEY = true
    · rw [if_neg (by simp [hk])]
      by_cases ht : text = ""
      · simp [ht, hk]
      · rw [if_neg ht]
        cases w.embed_call with
        | error e => simp [hk, ht]
        | ok emb =>
          by_cases he : emb = []
          · simp [he, hk, ht]
          · simp [he, hk, ht]
    · rw [if_pos (by simpa using hk)]
      simp [hk]

/-- Witness for C9: with the key unset no call is made, and with the key set
but an empty text no call is made either. -/
theorem get_gemini_embedding_guards_witness :
    get_gemini_embedding failing_world "내일 해운대 파도 어때?" =
        { result := none, remote_called := false } ∧
      get_gemini_embedding healthy_world "" =
        { result := none, remote_called := false } :=
  ⟨(get_gemini_embedding_guards failing_world "내일 해운대 파도 어때?").1 rfl,
   (get_gemini_embedding_guards healthy_world "").2.1 rfl⟩

/-- C10: at the chat endpoint the availability check precedes input
validation: whenever the agent is missing or its model uninitialized, every
request — including one with an empty or blank message — is rejected with
503; only when the service is available does an empty or blank message yield
the 400 client error. -/
theorem chat_endpoint_check_order (w : World) (rag_agent : Option RAGAgent)
    (message : String) (sid : Option String) :
    ((rag_agent = none ∨
        ∃ a, rag_agent = some a ∧ a.model_loaded = false) →
      chat_endpoint w rag_agent message sid =
        .error { status_code := 503, detail := service_unavailable_detail }) ∧
    (∀ a, rag_agent = some a → a.model_loaded = true →
      (message = "" ∨ message.trim = "") →
      chat_endpoint w rag_agent message sid =
        .error { status_code := 400, detail := empty_message_detail }) := by
  constructor
  · rintro (h | ⟨a, ha, hm⟩)
    · rw [h]; rfl
    · subst ha
      unfold chat_endpoint
      simp [hm]
  · intro a ha hm hblank
    subst ha
    unfold chat_endpoint
    simp [hm, hblank]

/-- Witness for C10: a blank message is answered 503 while the model is down,
and 400 once the service is up. -/
theorem chat_endpoint_check_order_witness :
    chat_endpoint healthy_world (some { model_loaded := false }) " " none =
        .error { status_code := 503, detail := service_unavailable_detail } ∧
      chat_endpoint healthy_world (some { model_loaded := true }) "" none =
        .error { status_code := 400, detail := empty_message_detail } :=
  ⟨(chat_endpoint_check_order healthy_world (some { model_loaded := false })
      " " none).1 (Or.inr ⟨{ model_loaded := false }, rfl, rfl⟩),
   (chat_endpoint_check_order healthy_world (some { model_loaded := true })
      "" none).2 { model_loaded := true } rfl rfl (Or.inl rfl)⟩

end FindYourWave
